import Mathlib

/-!
Verification development for the defi-cli repository.

This file gives a shallow embedding, in Lean 4, of the parts of the
repository exercised by the frozen claims:

* `defi_cli/rpc_helpers.py` — ABI codec (`encode_uint256`, `encode_int24`,
  `decode_uint`, `decode_int`, `decode_address`, `decode_string`,
  `normalize_symbol`) and the JSON-RPC client (`eth_call`,
  `eth_call_batch`, `eth_block_number`).
* `position_reader.py` — `PositionReader._get_block_number`,
  `read_position`, `_read_position_nft`, `_resolve_pool_address`,
  `_compute_token_amounts`, `_compute_fees`, `_sqrtPriceX96_to_price`,
  `_tick_to_price`.
* `real_defi_math.py` — `UniswapV3Math.capital_efficiency_vs_v2`.
* `defi_cli/stablecoins.py` — `is_stablecoin`, `stablecoin_side`.
* `position_indexer.py` — the `is_active` classification of a position
  summary (line 287).

Modelling conventions:

* Python arbitrary-precision integers are `Int` (or `Nat` where the source
  value is provably non-negative); Python `%` with a positive modulus is
  `Int.emod`, Python `//` is `Int.fdiv` (floor division).
* Python floats are modelled with exact real arithmetic (`ℝ`, or `ℚ` where
  every operation stays rational).  IEEE-754 rounding is outside the model;
  no claim below depends on float rounding.
* Python functions that can raise are modelled with `Option`/`Except`
  result types; a `try/except` block becomes a `match` on those results.
* Network I/O is modelled by an explicit oracle of responses, and the
  reader additionally returns the list of RPC operations it performed.
* Minor lexical corners of Python's `int(s, 16)` (underscore digit
  grouping) and `bytes.fromhex` (embedded spaces) are not modelled; no
  claim depends on them.
-/

set_option maxRecDepth 40000

namespace DefiCli

/-! ### Hex formatting — Python `format(value, '064x')` -/

/-- Lowercase hex digit character for `n < 16` (as produced by Python `%x`
formatting). -/
def hexDigit (n : Nat) : Char :=
  if n < 10 then Char.ofNat (48 + n) else Char.ofNat (87 + n)

/-- Fuel-driven most-significant-first hex digit expansion; the fuel is an
upper bound on the number of digits and is always instantiated with the
number itself. -/
def hexDigitsAux : Nat → Nat → List Char
  | 0, n => [hexDigit n]
  | fuel+1, n =>
    if n < 16 then [hexDigit n]
    else hexDigitsAux fuel (n / 16) ++ [hexDigit (n % 16)]

/-- Hex digit list of a natural number, as Python `format(n, 'x')` renders
it (lowercase, no prefix, `0` for zero). -/
def hexDigits (n : Nat) : List Char := hexDigitsAux n n

/-- Left-pad a character list with '0' up to width `w` (Python zero
padding / `str.zfill`). -/
def padLeftZero (w : Nat) (l : List Char) : List Char :=
  List.replicate (w - l.length) '0' ++ l

/-- Python `format(v, '064x')`: for `v ≥ 0` the hex digits left-zero-padded
to 64 characters (longer if the value needs more than 64 digits); for
`v < 0` a sign character followed by the digits of `|v|` zero-padded so the
whole string (sign included) has width 64. -/
def pyFormatHex64 (v : Int) : String :=
  if v < 0 then String.mk ('-' :: padLeftZero 63 (hexDigits v.natAbs))
  else String.mk (padLeftZero 64 (hexDigits v.toNat))

/-! ### ABI constants (rpc_helpers.py) -/

def ABI_WORD_HEX : Nat := 64
def ADDRESS_PAD_HEX : Nat := 24
def SIGN_BIT : Int := 1 <<< 255
def Q96 : Int := 2 ^ 96
def Q128 : Int := 2 ^ 128
def Q256 : Int := 2 ^ 256

/-! ### ABI encoding (rpc_helpers.py lines 107-142) -/

/-- Embeds `encode_uint256`: `format(value, '064x')` with no validation of
any kind. -/
def encode_uint256 (value : Int) : String :=
  pyFormatHex64 value

/-- Embeds `encode_address`: lowercase, strip every `0x` occurrence, zero
fill to 64 characters. -/
def encode_address (addr : String) : String :=
  String.mk (padLeftZero 64 ((addr.toLower.replace "0x" "").data))

/-- Embeds `encode_uint24`: same formatting as `encode_uint256`. -/
def encode_uint24 (val : Int) : String :=
  pyFormatHex64 val

/-- Embeds `encode_int24`: negative values are shifted by `2^256` before
formatting (two's complement). -/
def encode_int24 (value : Int) : String :=
  pyFormatHex64 (if value < 0 then Q256 + value else value)

/-! ### Hex parsing — Python `int(s, 16)` -/

/-- Value of one hex digit character, accepting both cases; `none` for a
non-hex character. -/
def hexVal (c : Char) : Option Nat :=
  if '0' ≤ c ∧ c ≤ '9' then some (c.toNat - 48)
  else if 'a' ≤ c ∧ c ≤ 'f' then some (c.toNat - 87)
  else if 'A' ≤ c ∧ c ≤ 'F' then some (c.toNat - 55)
  else none

/-- Parse a non-empty run of hex digit characters; `none` on an empty list
or any non-hex character (Python `int` raises `ValueError` there). -/
def parseHexDigits (l : List Char) : Option Nat :=
  if l.isEmpty then none
  else l.foldl (fun acc c => acc.bind fun a => (hexVal c).map fun v => a * 16 + v) (some 0)

/-- Strip an optional `0x` / `0X` marker (Python `int(s, 16)` accepts it). -/
def stripHexMarker : List Char → List Char
  | '0' :: 'x' :: r => r
  | '0' :: 'X' :: r => r
  | r => r

/-- Embeds Python `int(s, 16)`: surrounding whitespace is ignored, an
optional sign and an optional `0x` marker are accepted, and at least one
hex digit must remain; `none` models the `ValueError` raise.  (Underscore
digit grouping is not modelled.) -/
def pyIntHex (s : String) : Option Int :=
  let core := (((s.data.dropWhile Char.isWhitespace).reverse.dropWhile
      Char.isWhitespace).reverse)
  match core with
  | '-' :: r => (parseHexDigits (stripHexMarker r)).map fun n => -(n : Int)
  | '+' :: r => (parseHexDigits (stripHexMarker r)).map fun n => (n : Int)
  | r => (parseHexDigits (stripHexMarker r)).map fun n => (n : Int)

/-! ### ABI decoding (rpc_helpers.py lines 147-201) -/

/-- Embeds `decode_uint`: parse the `slot`-th 32-byte word (64 hex chars)
of the response; `none` models the `ValueError` Python raises on an empty
or malformed word. -/
def decode_uint (hex_data : String) (slot : Nat) : Option Int :=
  pyIntHex (String.mk ((hex_data.data.drop (slot * 64)).take 64))

/-- Embeds `decode_int`: `decode_uint`, then two's-complement adjustment of
values at or above the sign bit. -/
def decode_int (hex_data : String) (slot : Nat) : Option Int :=
  (decode_uint hex_data slot).map fun val =>
    if SIGN_BIT ≤ val then val - Q256 else val

/-- Embeds `decode_address`: the last 40 hex characters of the indexed
word, `0x`-prefixed.  Pure string slicing; never fails. -/
def decode_address (hex_data : String) (slot : Nat) : String :=
  "0x" ++ String.mk ((hex_data.data.drop (slot * 64 + ADDRESS_PAD_HEX)).take
    (64 - ADDRESS_PAD_HEX))

/-! ### Dynamic-string decoding (rpc_helpers.py lines 182-201)

`decode_string` needs Python `bytes.fromhex` and strict UTF-8 decoding,
both modelled here over lists of byte values. -/

/-- Pair up hex characters into byte values; `none` on odd length or a
non-hex character (Python `bytes.fromhex` raises there). -/
def bytesFromHex : List Char → Option (List Nat)
  | [] => some []
  | [_] => none
  | c1 :: c2 :: r => do
    let h ← hexVal c1
    let l ← hexVal c2
    let rest ← bytesFromHex r
    pure ((h * 16 + l) :: rest)

/-- Strict UTF-8 decoding of a byte list (the semantics of Python
`bytes.decode("utf-8")`): rejects stray continuation bytes, overlong
encodings, surrogates and code points above `0x10FFFF`; `none` models the
`UnicodeDecodeError` raise. -/
def utf8Decode : List Nat → Option (List Char)
  | [] => some []
  | b :: rest =>
    if b < 0x80 then
      (utf8Decode rest).map fun cs => Char.ofNat b :: cs
    else if 0xC2 ≤ b ∧ b ≤ 0xDF then
      match rest with
      | c1 :: r =>
        if 0x80 ≤ c1 ∧ c1 ≤ 0xBF then
          (utf8Decode r).map fun cs =>
            Char.ofNat ((b - 0xC0) * 64 + (c1 - 0x80)) :: cs
        else none
      | [] => none
    else if 0xE0 ≤ b ∧ b ≤ 0xEF then
      match rest with
      | c1 :: c2 :: r =>
        let cp := (b - 0xE0) * 4096 + (c1 - 0x80) * 64 + (c2 - 0x80)
        if (0x80 ≤ c1 ∧ c1 ≤ 0xBF) ∧ (0x80 ≤ c2 ∧ c2 ≤ 0xBF) ∧
            0x800 ≤ cp ∧ ¬ (0xD800 ≤ cp ∧ cp ≤ 0xDFFF) then
          (utf8Decode r).map fun cs => Char.ofNat cp :: cs
        else none
      | _ => none
    else if 0xF0 ≤ b ∧ b ≤ 0xF4 then
      match rest with
      | c1 :: c2 :: c3 :: r =>
        let cp := (b - 0xF0) * 262144 + (c1 - 0x80) * 4096 +
          (c2 - 0x80) * 64 + (c3 - 0x80)
        if (0x80 ≤ c1 ∧ c1 ≤ 0xBF) ∧ (0x80 ≤ c2 ∧ c2 ≤ 0xBF) ∧
            (0x80 ≤ c3 ∧ c3 ≤ 0xBF) ∧ 0x10000 ≤ cp ∧ cp ≤ 0x10FFFF then
          (utf8Decode r).map fun cs => Char.ofNat cp :: cs
        else none
      | _ => none
    else none

/-- Python `str.strip("\x00")`: drop NUL characters from both ends. -/
def stripNul (l : List Char) : List Char :=
  ((l.dropWhile (· = '\x00')).reverse.dropWhile (· = '\x00')).reverse

/-- Python `str.strip()`: drop whitespace from both ends. -/
def stripWs (l : List Char) : List Char :=
  ((l.dropWhile Char.isWhitespace).reverse.dropWhile Char.isWhitespace).reverse

/-- The standard dynamic-string layout branch of `decode_string` (the body
of its first `try`): offset word, length word, then `length` bytes of
UTF-8 text, NUL-stripped.  `none` models any raise inside that block. -/
def decodeStringStandard (hex_data : String) : Option String := do
  let offset ← decode_uint hex_data 0
  if offset < 0 then none else
  let word_offset := offset.toNat / 32
  let length ← decode_uint hex_data word_offset
  let start_byte := (word_offset + 1) * 64
  let hex_str := (hex_data.data.drop start_byte).take (length * 2).toNat
  let bytes ← bytesFromHex hex_str
  let chars ← utf8Decode bytes
  pure (String.mk (stripNul chars))

/-- The bytes32 fallback branch of `decode_string` (its second `try`):
decode the first word directly as NUL-padded UTF-8 text and strip
whitespace. -/
def decodeStringBytes32 (hex_data : String) : Option String := do
  let bytes ← bytesFromHex (hex_data.data.take 64)
  let chars ← utf8Decode bytes
  pure (String.mk (stripWs (stripNul chars)))

/-- Embeds `decode_string`: standard dynamic layout, then the bytes32
fallback, then the `"UNK"` sentinel.  Total — the Python function catches
every exception. -/
def decode_string (hex_data : String) : String :=
  match decodeStringStandard hex_data with
  | some s => s
  | none =>
    match decodeStringBytes32 hex_data with
    | some s => s
    | none => "UNK"

/-! ### Symbol normalization (rpc_helpers.py lines 47-59) -/

def SYMBOL_MAP : List (String × String) :=
  [("USD₮0", "USDT"), ("USD₮", "USDT"), ("USDT0", "USDT"),
   ("WETH", "WETH"), ("USDC.e", "USDC.e")]

/-- Embeds `normalize_symbol`: strip whitespace, then NULs, then look the
result up in `SYMBOL_MAP` (returning it unchanged when absent). -/
def normalize_symbol (raw_symbol : String) : String :=
  let cleaned := String.mk (stripNul (stripWs raw_symbol.data))
  (SYMBOL_MAP.lookup cleaned).getD cleaned

/-! ### Function selectors (rpc_helpers.py lines 83-102) -/

def SELECTOR_positions : String := "0x99fbab88"
def SELECTOR_slot0 : String := "0x3850c7bd"
def SELECTOR_liquidity : String := "0x1a686502"
def SELECTOR_feeGrowthGlobal0X128 : String := "0xf3058399"
def SELECTOR_feeGrowthGlobal1X128 : String := "0x46141319"
def SELECTOR_ticks : String := "0xf30dba93"
def SELECTOR_getPool : String := "0x1698ee82"
def SELECTOR_symbol : String := "0x95d89b41"
def SELECTOR_decimals : String := "0x313ce567"

/-! ### JSON-RPC client (rpc_helpers.py lines 206-296)

The HTTP layer is modelled by explicit response values: a transport-level
failure (unreachable node, timeout, malformed JSON — anything that makes
`httpx` or `resp.json()` raise) is `Except.error ()`, and a received JSON
document is the success payload. -/

/-- One JSON-RPC response object as the client inspects it: the optional
`error` member and the optional `result` member (other members are never
read). -/
structure CallResp where
  error : Option String
  result : Option String
deriving DecidableEq, Repr

/-- Embeds `eth_call` as a function of the HTTP outcome: node-level
errors, the `0x` empty sentinel and too-short results all raise
(`Except.error`); otherwise the `0x` marker is stripped. -/
def eth_call (resp : Except Unit CallResp) : Except Unit String :=
  match resp with
  | .error _ => .error ()
  | .ok r =>
    if r.error.isSome then .error ()
    else
      let raw := r.result.getD "0x"
      if raw = "0x" ∨ raw.length < 4 then .error ()
      else .ok (raw.drop 2)

/-- One entry of a batched JSON-RPC response array: its optional `id` and
optional `result` members. -/
structure RpcRespItem where
  id : Option Int
  result : Option String
deriving DecidableEq, Repr

/-- A parsed batch HTTP response body: a JSON array, a single JSON object
(endpoint without batch support), or any other JSON document. -/
inductive BatchHttp where
  | arr (items : List RpcRespItem)
  | obj (item : RpcRespItem)
  | other
deriving DecidableEq, Repr

/-- One request of the batch payload array built by `eth_call_batch`:
`{"id": i+1, "method": "eth_call", "params": [{"to": to, "data": data}]}`. -/
structure RpcPayload where
  id : Nat
  toAddr : String
  data : String
deriving DecidableEq, Repr

/-- Embeds the payload loop of `eth_call_batch` (lines 251-258): request
`i` (0-indexed) is tagged with correlation id `i + 1`. -/
def makePayloads (calls : List (String × String)) : List RpcPayload :=
  calls.enum.map fun p => ⟨p.1 + 1, p.2.1, p.2.2⟩

/-- The sort key order of `eth_call_batch` (line 266):
`key=lambda r: r.get("id", 0)`. -/
def idLe (a b : RpcRespItem) : Prop := a.id.getD 0 ≤ b.id.getD 0

instance : DecidableRel idLe := fun a b =>
  inferInstanceAs (Decidable (a.id.getD 0 ≤ b.id.getD 0))

/-- Strict version of `idLe`, used only in proofs. -/
def idLt (a b : RpcRespItem) : Prop := a.id.getD 0 < b.id.getD 0

/-- Embeds the response post-processing of `eth_call_batch` (lines
264-267): stable sort by `r.get("id", 0)` (Python `list.sort` is a stable
sort, modelled by stable insertion sort), then extract `r["result"][2:]`
(or `""` when `result` is absent) from each item. -/
def batchSortExtract (items : List RpcRespItem) : List String :=
  (List.insertionSort idLe items).map fun r =>
    match r.result with
    | some s => s.drop 2
    | none => ""

/-- Decode one parsed batch response body, as `eth_call_batch` does after
`resp.json()`: arrays are sorted and extracted, a single object yields a
one-element list, any other JSON raises (`results.get` on a non-dict). -/
def batchDecode (body : Except Unit BatchHttp) : Except Unit (List String) :=
  match body with
  | .error _ => .error ()
  | .ok (.arr items) => .ok (batchSortExtract items)
  | .ok (.obj r) => .ok [(r.result.getD "0x").drop 2]
  | .ok .other => .error ()

/-- Embeds `eth_call_batch` as a function of the network behaviour `net`
(mapping the posted payload array to the HTTP outcome).  Note that a
transport failure propagates: there is no retry of any kind inside this
function. -/
def eth_call_batch (calls : List (String × String))
    (net : List RpcPayload → Except Unit BatchHttp) : Except Unit (List String) :=
  batchDecode (net (makePayloads calls))

/-- Embeds `eth_block_number` as a function of the HTTP outcome: raises on
transport failure, on an `error` member, on a missing `result` member and
on an unparsable hex string; otherwise parses the hex block number. -/
def eth_block_number (resp : Except Unit CallResp) : Except Unit Int :=
  match resp with
  | .error _ => .error ()
  | .ok r =>
    if r.error.isSome then .error ()
    else
      match r.result with
      | none => .error ()
      | some s =>
        match pyIntHex s with
        | some n => .ok n
        | none => .error ()

/-! ### PositionReader._get_block_number (position_reader.py lines 129-134) -/

/-- Embeds `PositionReader._get_block_number`: absorb any failure of the
transport call and return 0. -/
def get_block_number (resp : Except Unit CallResp) : Int :=
  match eth_block_number resp with
  | .ok n => n
  | .error _ => 0

/-! ### Position record (position_reader.py lines 450-463) -/

/-- The decoded `positions(tokenId)` record, with the 12 fields
`_read_position_nft` extracts. -/
structure PosRecord where
  nonce : Int
  operator : String
  token0 : String
  token1 : String
  fee : Int
  tickLower : Int
  tickUpper : Int
  liquidity : Int
  feeGrowthInside0LastX128 : Int
  feeGrowthInside1LastX128 : Int
  tokensOwed0 : Int
  tokensOwed1 : Int
deriving DecidableEq, Repr

/-- Embeds the decoding part of `_read_position_nft`: the 12 word reads of
the positions record; `none` models a `ValueError` raised by any of the
`decode_uint`/`decode_int` calls, which `read_position` propagates. -/
def decodePos (result : String) : Option PosRecord := do
  let nonce ← decode_uint result 0
  let operator := decode_address result 1
  let token0 := decode_address result 2
  let token1 := decode_address result 3
  let fee ← decode_uint result 4
  let tickLower ← decode_int result 5
  let tickUpper ← decode_int result 6
  let liquidity ← decode_uint result 7
  let fg0 ← decode_uint result 8
  let fg1 ← decode_uint result 9
  let owed0 ← decode_uint result 10
  let owed1 ← decode_uint result 11
  pure ⟨nonce, operator, token0, token1, fee, tickLower, tickUpper,
    liquidity, fg0, fg1, owed0, owed1⟩

/-! ### Uncollected-fee computation (position_reader.py lines 536-607) -/

/-- Embeds the arithmetic body of `_compute_fees` (lines 564-596), after
the four `feeGrowthOutside` words have been decoded: fee growth below /
above / inside under mod-`2^256` subtraction, then
`liquidity * Δ // 2^128` plus the checkpointed `tokensOwed`, for both
tokens.  Python `%` on a positive modulus is `Int.emod` and `//` is floor
division. -/
def computeFeesRaw (pos : PosRecord) (current_tick : Int)
    (fg0_global fg1_global : Int)
    (fg0_outside_lower fg1_outside_lower fg0_outside_upper fg1_outside_upper : Int) :
    Int × Int :=
  let fg0_below := if current_tick ≥ pos.tickLower then fg0_outside_lower
    else (fg0_global - fg0_outside_lower) % Q256
  let fg1_below := if current_tick ≥ pos.tickLower then fg1_outside_lower
    else (fg1_global - fg1_outside_lower) % Q256
  let fg0_above := if current_tick < pos.tickUpper then fg0_outside_upper
    else (fg0_global - fg0_outside_upper) % Q256
  let fg1_above := if current_tick < pos.tickUpper then fg1_outside_upper
    else (fg1_global - fg1_outside_upper) % Q256
  let fg0_inside := (fg0_global - fg0_below - fg0_above) % Q256
  let fg1_inside := (fg1_global - fg1_below - fg1_above) % Q256
  let liq := pos.liquidity
  let fees0_raw := Int.fdiv (liq * ((fg0_inside - pos.feeGrowthInside0LastX128) % Q256)) Q128
    + pos.tokensOwed0
  let fees1_raw := Int.fdiv (liq * ((fg1_inside - pos.feeGrowthInside1LastX128) % Q256)) Q128
    + pos.tokensOwed1
  (fees0_raw, fees1_raw)

/-- Embeds `_compute_fees` (lines 536-607): decode the four
`feeGrowthOutside` words from the raw tick data, run `computeFeesRaw`, and
scale by token decimals; any failure (missing tick data or a decode raise)
is absorbed by the `except` clause, which returns the checkpointed
`tokensOwed` amounts scaled by decimals.  Float division is modelled as
exact rational division. -/
def compute_fees (pos : PosRecord) (current_tick : Int)
    (fg0_global fg1_global : Int) (tick_lower_data tick_upper_data : String)
    (decimals0 decimals1 : Int) : ℚ × ℚ :=
  let fallback : ℚ × ℚ :=
    ((pos.tokensOwed0 : ℚ) / (10 : ℚ) ^ decimals0,
     (pos.tokensOwed1 : ℚ) / (10 : ℚ) ^ decimals1)
  if tick_lower_data = "" ∨ tick_upper_data = "" then fallback
  else
    match decode_uint tick_lower_data 2, decode_uint tick_lower_data 3,
        decode_uint tick_upper_data 2, decode_uint tick_upper_data 3 with
    | some fg0ol, some fg1ol, some fg0ou, some fg1ou =>
      let raw := computeFeesRaw pos current_tick fg0_global fg1_global
        fg0ol fg1ol fg0ou fg1ou
      ((raw.1 : ℚ) / (10 : ℚ) ^ decimals0, (raw.2 : ℚ) / (10 : ℚ) ^ decimals1)
    | _, _, _, _ => fallback

/-! ### Reference fee-growth-inside algorithm, as the specification states
it (spec.md §4.3 `uncollectedFees`).  These definitions transcribe the
claim's wording and exist to be compared with the source-derived
`computeFeesRaw`. -/

/-- Fee growth below the lower boundary per the spec's wording: the
boundary's outside value when `currentTick >= tickLower`, else
`(global - outside) mod 2^256`. -/
def feeGrowthBelowRef (currentTick tickLower g outside : Int) : Int :=
  if currentTick ≥ tickLower then outside else (g - outside) % Q256

/-- Fee growth above the upper boundary per the spec's wording: the
boundary's outside value when `currentTick < tickUpper`, else
`(global - outside) mod 2^256`. -/
def feeGrowthAboveRef (currentTick tickUpper g outside : Int) : Int :=
  if currentTick < tickUpper then outside else (g - outside) % Q256

/-- Fee growth inside the range per the spec's wording:
`(global - below - above) mod 2^256`. -/
def feeGrowthInsideRef (g below above : Int) : Int :=
  (g - below - above) % Q256

/-- Uncollected amount before decimal scaling per the spec's wording:
`liquidity * ((feeGrowthInside - checkpoint) mod 2^256) / 2^128` plus the
position's checkpointed `tokensOwed`. -/
def uncollectedRef (liquidity inside checkpoint owed : Int) : Int :=
  Int.fdiv (liquidity * ((inside - checkpoint) % Q256)) Q128 + owed

/-! ### Token amounts and price conversion (position_reader.py lines
493-532 and 611-639); floats are modelled as exact reals -/

/-- Embeds `_compute_token_amounts`: the three-regime Uniswap V3 token
amount formulas, then decimal scaling.  `1.0001 ** (tick / 2)` is Python
float exponentiation with a possibly fractional exponent, modelled as
`Real.rpow`. -/
noncomputable def compute_token_amounts (liquidity sqrtPriceX96 : Int)
    (current_tick tick_lower tick_upper : Int) (decimals0 decimals1 : Int) :
    ℝ × ℝ :=
  if liquidity = 0 ∨ sqrtPriceX96 = 0 then (0, 0)
  else
    let sqrtP : ℝ := (sqrtPriceX96 : ℝ) / (2 : ℝ) ^ (96 : ℕ)
    let sqrtPl : ℝ := (1.0001 : ℝ) ^ ((tick_lower : ℝ) / 2)
    let sqrtPu : ℝ := (1.0001 : ℝ) ^ ((tick_upper : ℝ) / 2)
    let raw : ℝ × ℝ :=
      if current_tick < tick_lower then
        ((liquidity : ℝ) * (1 / sqrtPl - 1 / sqrtPu), 0)
      else if current_tick ≥ tick_upper then
        (0, (liquidity : ℝ) * (sqrtPu - sqrtPl))
      else
        ((liquidity : ℝ) * (1 / sqrtP - 1 / sqrtPu),
         (liquidity : ℝ) * (sqrtP - sqrtPl))
    (raw.1 / (10 : ℝ) ^ decimals0, raw.2 / (10 : ℝ) ^ decimals1)

/-- Embeds `_sqrtPriceX96_to_price`: `(sqrtPriceX96 / 2^96)^2` scaled by
`10^(decimals0 - decimals1)`, with 0 for a zero input. -/
noncomputable def sqrtPriceX96_to_price (sqrtPriceX96 : Int)
    (decimals0 decimals1 : Int) : ℝ :=
  if sqrtPriceX96 = 0 then 0
  else
    let sqrtP : ℝ := (sqrtPriceX96 : ℝ) / (2 : ℝ) ^ (96 : ℕ)
    sqrtP * sqrtP * (10 : ℝ) ^ (decimals0 - decimals1)

/-- Embeds `_tick_to_price`: `1.0001^tick` scaled by
`10^(decimals0 - decimals1)`. -/
noncomputable def tick_to_price (tick : Int) (decimals0 decimals1 : Int) : ℝ :=
  (1.0001 : ℝ) ^ tick * (10 : ℝ) ^ (decimals0 - decimals1)

/-! ### Capital efficiency (real_defi_math.py lines 338-353) -/

/-- Embeds `UniswapV3Math.capital_efficiency_vs_v2`:
`1 / (1 - sqrt(price_lower / price_upper))` with a `1.0` result for
degenerate ranges and for a non-positive denominator. -/
noncomputable def capital_efficiency_vs_v2 (price_lower price_upper : ℝ) : ℝ :=
  if price_upper ≤ price_lower ∨ price_lower ≤ 0 then 1
  else
    let ratio := Real.sqrt (price_lower / price_upper)
    let denom := 1 - ratio
    if 0 < denom then 1 / denom else 1

/-! ### Stablecoin classification (defi_cli/stablecoins.py) -/

def STABLECOIN_SYMBOLS : List String :=
  ["USDC", "USDT", "DAI", "BUSD", "TUSD", "FRAX", "LUSD",
   "USDP", "GUSD", "SUSD", "CUSD", "USDD", "PYUSD", "GHO",
   "FDUSD", "CRVUSD", "MKUSD",
   "USDC.E", "USDT.E", "DAI.E",
   "USDBC", "USDCE",
   "AXLUSDC",
   "EURS", "EURT", "AGEUR", "CEUR", "EURC",
   "GBPT",
   "MIM", "DOLA", "ALUSD", "USDS",
   "OUSD"]

/-- Embeds `is_stablecoin`: strip, uppercase, membership in the known
stablecoin set. -/
def is_stablecoin (symbol : String) : Bool :=
  STABLECOIN_SYMBOLS.contains (String.mk (stripWs symbol.data)).toUpper

/-- Embeds `stablecoin_side`: 0 when only token0 is a stablecoin, 1 when
only token1 is, -1 otherwise. -/
def stablecoin_side (symbol0 symbol1 : String) : Int :=
  let s0 := is_stablecoin symbol0
  let s1 := is_stablecoin symbol1
  if s0 ∧ ¬ s1 then 0
  else if s1 ∧ ¬ s0 then 1
  else -1

/-! ### Position-summary activity flag (position_indexer.py line 287) -/

/-- Embeds the `is_active` computation of the indexer's position summary:
`pos["liquidity"] > 0`. -/
def indexer_is_active (liquidity : Int) : Bool :=
  decide (liquidity > 0)

/-! ### Snapshot data model (the dict returned by read_position, lines
307-434).  Python dicts become association lists so that presence and
absence of keys is part of the model. -/

/-- Models Python `round(x, ndigits)` under exact-real semantics (the
tie-breaking corner of binary floats is outside the model). -/
noncomputable def pyRound (x : ℝ) (ndigits : Nat) : ℝ :=
  ((round (x * (10 : ℝ) ^ ndigits) : ℤ) : ℝ) / (10 : ℝ) ^ ndigits

/-- A decoded field recorded in the audit trail (only integers and
strings occur there). -/
inductive DecodedVal where
  | dInt (n : Int)
  | dStr (s : String)

/-- One `raw_calls` entry of the audit trail. -/
structure RawCall where
  label : String
  toAddr : String
  selector : String
  calldata : Option String
  decoded : List (String × DecodedVal)

/-- The `audit_trail` value.  The source renders each applied formula as
an f-string embedding the numeric result; the model keeps the formula
text and the exact numeric result as a pair, since float formatting is
display-only. -/
structure AuditTrail where
  block_number : Int
  rpc_endpoint : String
  dex : String
  contracts : List (String × String)
  raw_calls : List RawCall
  formulas_applied : List (String × ℝ)

/-- A value of the snapshot dict. -/
inductive Val where
  | vInt (n : Int)
  | vReal (x : ℝ)
  | vStr (s : String)
  | vBool (b : Bool)
  | vAudit (a : AuditTrail)

/-- All inputs of the final dict assembly of `read_position`. -/
structure SnapArgs where
  position_id : Int
  pool_address : String
  network : String
  pos : PosRecord
  symbol0 : String
  symbol1 : String
  decimals0 : Int
  decimals1 : Int
  fee_tier : ℝ
  in_range : Bool
  current_price : ℝ
  price_lower : ℝ
  price_upper : ℝ
  amount0 : ℝ
  amount1 : ℝ
  token0_value_usd : ℝ
  token1_value_usd : ℝ
  total_value_usd : ℝ
  t0_pct : ℝ
  t1_pct : ℝ
  fees0 : ℝ
  fees1 : ℝ
  fee0_value_usd : ℝ
  fee1_value_usd : ℝ
  total_fees_usd : ℝ
  pool_liquidity : Int
  position_share : ℝ
  sqrtPriceX96 : Int
  pool_tick : Int
  rpc_endpoint : String
  block_number : Int
  dex_slug : String
  dex_name : String
  position_manager : String
  fg0_global : Int
  fg1_global : Int

/-- The `audit_trail` dict of lines 370-433. -/
noncomputable def mkAuditTrail (a : SnapArgs) : AuditTrail :=
  { block_number := a.block_number
    rpc_endpoint := a.rpc_endpoint
    dex := a.dex_name
    contracts :=
      [("position_manager", a.position_manager), ("pool", a.pool_address),
       ("token0", a.pos.token0), ("token1", a.pos.token1)]
    raw_calls :=
      [{ label := "positions(uint256)", toAddr := a.position_manager,
         selector := SELECTOR_positions,
         calldata := some (SELECTOR_positions ++
           String.mk (padLeftZero 64 (hexDigits a.position_id.toNat))),
         decoded :=
           [("liquidity", .dInt a.pos.liquidity),
            ("tickLower", .dInt a.pos.tickLower),
            ("tickUpper", .dInt a.pos.tickUpper),
            ("fee", .dInt a.pos.fee),
            ("token0", .dStr a.pos.token0),
            ("token1", .dStr a.pos.token1)] },
       { label := "slot0()", toAddr := a.pool_address,
         selector := SELECTOR_slot0, calldata := none,
         decoded := [("sqrtPriceX96", .dInt a.sqrtPriceX96),
                     ("tick", .dInt a.pool_tick)] },
       { label := "liquidity()", toAddr := a.pool_address,
         selector := SELECTOR_liquidity, calldata := none,
         decoded := [("liquidity", .dInt a.pool_liquidity)] },
       { label := "feeGrowthGlobal0X128()", toAddr := a.pool_address,
         selector := SELECTOR_feeGrowthGlobal0X128, calldata := none,
         decoded := [("value", .dInt a.fg0_global)] },
       { label := "feeGrowthGlobal1X128()", toAddr := a.pool_address,
         selector := SELECTOR_feeGrowthGlobal1X128, calldata := none,
         decoded := [("value", .dInt a.fg1_global)] }]
    formulas_applied :=
      [("current_price = (sqrtPriceX96 / 2^96)^2 * 10^(d0-d1)", a.current_price),
       ("price_lower = 1.0001^tickLower * 10^(d0-d1)", a.price_lower),
       ("price_upper = 1.0001^tickUpper * 10^(d0-d1)", a.price_upper),
       ("token0_amount = L * (1/sqrtP - 1/sqrtPu) / 10^d0", a.amount0),
       ("token1_amount = L * (sqrtP - sqrtPl) / 10^d1", a.amount1),
       ("fees0 = (feeGrowthInside0 * L) / 2^128 / 10^d0", a.fees0),
       ("fees1 = (feeGrowthInside1 * L) / 2^128 / 10^d1", a.fees1),
       ("position_share = L / pool_liquidity", a.position_share)] }

/-- The dict returned by `read_position` (lines 307-434), key for key in
source order. -/
noncomputable def assembleSnapshot (a : SnapArgs) : List (String × Val) :=
  [("position_id", .vInt a.position_id),
   ("pool_address", .vStr a.pool_address),
   ("network", .vStr a.network),
   ("token0_address", .vStr a.pos.token0),
   ("token1_address", .vStr a.pos.token1),
   ("token0_symbol", .vStr a.symbol0),
   ("token1_symbol", .vStr a.symbol1),
   ("token0_decimals", .vInt a.decimals0),
   ("token1_decimals", .vInt a.decimals1),
   ("fee_raw", .vInt a.pos.fee),
   ("fee_tier", .vReal a.fee_tier),
   ("liquidity_raw", .vInt a.pos.liquidity),
   ("tickLower", .vInt a.pos.tickLower),
   ("tickUpper", .vInt a.pos.tickUpper),
   ("in_range", .vBool a.in_range),
   ("current_price", .vReal (pyRound a.current_price 6)),
   ("price_lower", .vReal (pyRound a.price_lower 6)),
   ("price_upper", .vReal (pyRound a.price_upper 6)),
   ("amount0", .vReal (pyRound a.amount0 8)),
   ("amount1", .vReal (pyRound a.amount1 8)),
   ("token0_value_usd", .vReal (pyRound a.token0_value_usd 2)),
   ("token1_value_usd", .vReal (pyRound a.token1_value_usd 2)),
   ("total_value_usd", .vReal (pyRound a.total_value_usd 2)),
   ("token0_pct", .vReal (pyRound a.t0_pct 2)),
   ("token1_pct", .vReal (pyRound a.t1_pct 2)),
   ("fees0", .vReal (pyRound a.fees0 8)),
   ("fees1", .vReal (pyRound a.fees1 8)),
   ("fee0_value_usd", .vReal (pyRound a.fee0_value_usd 2)),
   ("fee1_value_usd", .vReal (pyRound a.fee1_value_usd 2)),
   ("total_fees_usd", .vReal (pyRound a.total_fees_usd 2)),
   ("pool_liquidity", .vInt a.pool_liquidity),
   ("position_share", .vReal (pyRound (a.position_share * 100) 6)),
   ("sqrtPriceX96", .vInt a.sqrtPriceX96),
   ("pool_tick", .vInt a.pool_tick),
   ("data_source", .vStr "on-chain"),
   ("rpc_endpoint", .vStr a.rpc_endpoint),
   ("block_number", .vInt a.block_number),
   ("dex_slug", .vStr a.dex_slug),
   ("dex_name", .vStr a.dex_name),
   ("audit_trail", .vAudit (mkAuditTrail a))]

/-! ### read_position (position_reader.py lines 136-434) -/

/-- Network operations performed by one `read_position` invocation. -/
inductive RpcLog where
  | blockNumber
  | call (toAddr data : String)
  | batch (calls : List (String × String))
deriving DecidableEq, Repr

/-- The network environment of one `read_position` invocation: the
outcome each HTTP exchange would have. -/
structure NetOracle where
  blockResp : Except Unit CallResp
  nftResp : Except Unit CallResp
  getPoolResp : Except Unit CallResp
  batch8 : Except Unit BatchHttp
  batch2 : Except Unit BatchHttp
  single : String → String → Except Unit CallResp

/-- The reader configuration resolved by `PositionReader.__init__`. -/
structure ReaderCfg where
  network : String
  rpc_url : String
  position_manager : String
  factory : String
  dex_slug : String
  dex_name : String

/-- Embeds the Python conditional expression
`_decode_uint(data, slot) if data else dflt` (a raise inside the decode
propagates); string truthiness is the equality test with `""`. -/
def decodeOrDefaultU (data : String) (slot : Nat) (dflt : Int) : Option Int :=
  if data == "" then some dflt else decode_uint data slot

/-- Embeds `_decode_int(data, slot) if data else dflt`. -/
def decodeOrDefaultI (data : String) (slot : Nat) (dflt : Int) : Option Int :=
  if data == "" then some dflt else decode_int data slot

/-- Models Python `s.startswith(pre)` by character-list comparison. -/
def pyStartsWith (s pre : String) : Bool :=
  s.data.take pre.data.length == pre.data

/-- Embeds the `try/except` fallback of `read_position` around its batched
calls (lines 188-198 and 231-245): on a batch failure, each call is
retried individually via `eth_call` and a failing single call leaves the
empty string.  This fallback lives in `read_position`, the caller — not in
`eth_call_batch`. -/
def batchWithFallback (batchRes : Except Unit (List String))
    (single : String → String → Except Unit CallResp)
    (calls : List (String × String)) : List String :=
  match batchRes with
  | .ok rs => rs
  | .error _ =>
    calls.map fun c =>
      match eth_call (single c.1 c.2) with
      | .ok r => r
      | .error _ => ""

/-- The extra RPC operations the sequential fallback performs (none when
the batch succeeded). -/
def fallbackLog (batchRes : Except Unit (List String))
    (calls : List (String × String)) : List RpcLog :=
  match batchRes with
  | .ok _ => []
  | .error _ => calls.map fun c => .call c.1 c.2

/-- The `pool_address` truthiness test of lines 152 and 163 (Python treats
`None` and `""` alike as absent). -/
def poolGiven : Option String → Bool
  | none => false
  | some s => !(s == "")

/-- The input validation of line 152: only a truthy `pool_address` is
checked for the `0x` marker and the 42-character length. -/
def invalidPoolArg : Option String → Bool
  | none => false
  | some s => !(s == "") && (!(pyStartsWith s "0x") || s.length != 42)

def zeroAddress : String := "0x0000000000000000000000000000000000000000"

/-- Embeds `PositionReader.read_position` (lines 136-434) as a function of
the explicit inputs, the reader configuration and the network oracle.  The
first component is the returned snapshot dict (or the message of the
exception the Python code raises); the second is the list of network
operations performed, in order. -/
noncomputable def readPosition (position_id : Int) (pool_address : Option String)
    (cfg : ReaderCfg) (o : NetOracle) :
    Except String (List (String × Val)) × List RpcLog :=
  if position_id < 0 then (.error "position_id must be non-negative", [])
  else if invalidPoolArg pool_address then (.error "Invalid pool address", [])
  else
    let block_number := get_block_number o.blockResp
    let calldata := SELECTOR_positions ++ encode_uint256 position_id
    let log1 : List RpcLog := [.blockNumber, .call cfg.position_manager calldata]
    match eth_call o.nftResp with
    | .error _ => (.error "RPC error", log1)
    | .ok res =>
      match decodePos res with
      | none => (.error "ValueError: malformed positions data", log1)
      | some pos =>
        let resolved : Except (String × List RpcLog) (String × List RpcLog) :=
          if poolGiven pool_address then .ok (pool_address.getD "", log1)
          else
            let calldata2 := SELECTOR_getPool ++ encode_address pos.token0 ++
              encode_address pos.token1 ++ encode_uint24 pos.fee
            let log2 := log1 ++ [.call cfg.factory calldata2]
            match eth_call o.getPoolResp with
            | .error _ => .error ("RPC error", log2)
            | .ok r =>
              let pool := decode_address r 0
              if pool = zeroAddress then .error ("Pool not found", log2)
              else .ok (pool, log2)
        match resolved with
        | .error e => (.error e.1, e.2)
        | .ok (pool, log2) =>
          let batch_calls : List (String × String) :=
            [(pool, SELECTOR_slot0), (pool, SELECTOR_liquidity),
             (pool, SELECTOR_feeGrowthGlobal0X128),
             (pool, SELECTOR_feeGrowthGlobal1X128),
             (pos.token0, SELECTOR_decimals), (pos.token1, SELECTOR_decimals),
             (pos.token0, SELECTOR_symbol), (pos.token1, SELECTOR_symbol)]
          let batchRes := eth_call_batch batch_calls fun _ => o.batch8
          let batch_results := batchWithFallback batchRes o.single batch_calls
          let log3 := log2 ++ [.batch batch_calls] ++ fallbackLog batchRes batch_calls
          match batch_results[0]?, batch_results[1]?, batch_results[2]?,
              batch_results[3]?, batch_results[4]?, batch_results[5]?,
              batch_results[6]?, batch_results[7]? with
          | some slot0_data, some pool_liq_data, some fg0_global_data,
            some fg1_global_data, some dec0_data, some dec1_data,
            some sym0_data, some sym1_data =>
            match decodeOrDefaultU slot0_data 0 0, decodeOrDefaultI slot0_data 1 0,
                decodeOrDefaultU pool_liq_data 0 0, decodeOrDefaultU dec0_data 0 18,
                decodeOrDefaultU dec1_data 0 6, decodeOrDefaultU fg0_global_data 0 0,
                decodeOrDefaultU fg1_global_data 0 0 with
            | some sqrtPriceX96, some current_tick, some pool_liquidity,
              some decimals0, some decimals1, some fg0_global, some fg1_global =>
              let symbol0 := if sym0_data == "" then "TOKEN0"
                else normalize_symbol (decode_string sym0_data)
              let symbol1 := if sym1_data == "" then "TOKEN1"
                else normalize_symbol (decode_string sym1_data)
              let tick_lower_call := SELECTOR_ticks ++ encode_int24 pos.tickLower
              let tick_upper_call := SELECTOR_ticks ++ encode_int24 pos.tickUpper
              let tick_calls : List (String × String) :=
                [(pool, tick_lower_call), (pool, tick_upper_call)]
              let tickRes := eth_call_batch tick_calls fun _ => o.batch2
              let tick_batch := batchWithFallback tickRes o.single tick_calls
              let log4 := log3 ++ [.batch tick_calls] ++ fallbackLog tickRes tick_calls
              match tick_batch[0]?, tick_batch[1]? with
              | some tick_lower_data, some tick_upper_data =>
                let amounts := compute_token_amounts pos.liquidity sqrtPriceX96
                  current_tick pos.tickLower pos.tickUpper decimals0 decimals1
                let feesQ := compute_fees pos current_tick fg0_global fg1_global
                  tick_lower_data tick_upper_data decimals0 decimals1
                let fees0 : ℝ := (feesQ.1 : ℝ)
                let fees1 : ℝ := (feesQ.2 : ℝ)
                let current_price := sqrtPriceX96_to_price sqrtPriceX96 decimals0 decimals1
                let price_lower := tick_to_price pos.tickLower decimals0 decimals1
                let price_upper := tick_to_price pos.tickUpper decimals0 decimals1
                let stable_idx := stablecoin_side symbol0 symbol1
                let usd : ℝ × ℝ × ℝ × ℝ :=
                  if stable_idx = 1 then
                    (amounts.1 * current_price, amounts.2,
                     fees0 * current_price, fees1)
                  else if stable_idx = 0 then
                    (amounts.1,
                     if current_price > 0 then amounts.2 / current_price else 0,
                     fees0,
                     if current_price > 0 then fees1 / current_price else 0)
                  else
                    (amounts.1 * current_price, amounts.2,
                     fees0 * current_price, fees1)
                let token0_value_usd := usd.1
                let token1_value_usd := usd.2.1
                let fee0_value_usd := usd.2.2.1
                let fee1_value_usd := usd.2.2.2
                let total_value_usd := token0_value_usd + token1_value_usd
                let total_fees_usd := fee0_value_usd + fee1_value_usd
                let t0_pct : ℝ := if total_value_usd > 0
                  then token0_value_usd / total_value_usd * 100 else 0
                let t1_pct : ℝ := if total_value_usd > 0
                  then token1_value_usd / total_value_usd * 100 else 0
                let in_range := decide (pos.tickLower ≤ current_tick ∧
                  current_tick < pos.tickUpper)
                let position_share : ℝ := if pool_liquidity > 0
                  then (pos.liquidity : ℝ) / (pool_liquidity : ℝ) else 0
                let fee_tier : ℝ := (pos.fee : ℝ) / 1000000
                (.ok (assembleSnapshot
                  { position_id := position_id, pool_address := pool,
                    network := cfg.network, pos := pos,
                    symbol0 := symbol0, symbol1 := symbol1,
                    decimals0 := decimals0, decimals1 := decimals1,
                    fee_tier := fee_tier, in_range := in_range,
                    current_price := current_price, price_lower := price_lower,
                    price_upper := price_upper,
                    amount0 := amounts.1, amount1 := amounts.2,
                    token0_value_usd := token0_value_usd,
                    token1_value_usd := token1_value_usd,
                    total_value_usd := total_value_usd,
                    t0_pct := t0_pct, t1_pct := t1_pct,
                    fees0 := fees0, fees1 := fees1,
                    fee0_value_usd := fee0_value_usd,
                    fee1_value_usd := fee1_value_usd,
                    total_fees_usd := total_fees_usd,
                    pool_liquidity := pool_liquidity,
                    position_share := position_share,
                    sqrtPriceX96 := sqrtPriceX96, pool_tick := current_tick,
                    rpc_endpoint := cfg.rpc_url, block_number := block_number,
                    dex_slug := cfg.dex_slug, dex_name := cfg.dex_name,
                    position_manager := cfg.position_manager,
                    fg0_global := fg0_global, fg1_global := fg1_global }), log4)
              | _, _ => (.error "IndexError: tick batch", log4)
            | _, _, _, _, _, _, _ => (.error "ValueError: malformed batch data", log3)
          | _, _, _, _, _, _, _, _ => (.error "IndexError: batch", log3)

/-- Look a key up in the snapshot of a `readPosition` outcome: `none` when
the call raised, `some r` with the dict lookup result `r` otherwise. -/
noncomputable def snapLookup
    (res : Except String (List (String × Val)) × List RpcLog) (key : String) :
    Option (Option Val) :=
  res.1.toOption.map (List.lookup key)

end DefiCli

namespace DefiCli

/-! ## Snapshot lookup lemmas -/

/-- A successful `readPosition` outcome looks keys up in its snapshot. -/
lemma snapLookup_eq (p : Except String (List (String × Val)) × List RpcLog)
    (l : List (String × Val)) (h : p.1 = .ok l) (key : String) :
    snapLookup p key = some (List.lookup key l) := by
  unfold snapLookup
  rw [h]
  rfl

/-- The snapshot's `liquidity_raw` entry is the decoded position
liquidity. -/
lemma lookup_liquidity_raw (a : SnapArgs) :
    List.lookup "liquidity_raw" (assembleSnapshot a) = some (.vInt a.pos.liquidity) :=
  rfl

/-- The snapshot has no `is_active` key. -/
lemma lookup_is_active (a : SnapArgs) :
    List.lookup "is_active" (assembleSnapshot a) = none :=
  rfl

/-- The snapshot has no `isActive` key. -/
lemma lookup_isActive (a : SnapArgs) :
    List.lookup "isActive" (assembleSnapshot a) = none :=
  rfl

/-! ## Concrete fixtures for the read_position claims -/

def c9_pa : String := "0x1111111111111111111111111111111111111111"

/-- A positions() response of 12 all-zero words. -/
def c9_posData : String := String.mk (List.replicate 768 '0')

def c9_cfg : ReaderCfg :=
  ⟨"arbitrum", "https://rpc.example", "0xPM", "0xFA", "uniswap_v3", "Uniswap V3"⟩

/-- Oracle: NFT read succeeds with an all-zero record, every other
exchange fails at transport level (exercising the sequential fallbacks and
every decode default). -/
def c9_oracle : NetOracle :=
  { blockResp := .error (), nftResp := .ok ⟨none, some ("0x" ++ c9_posData)⟩,
    getPoolResp := .error (), batch8 := .error (), batch2 := .error (),
    single := fun _ _ => .error () }

/-- The all-zero decoded position record. -/
def c9_pos : PosRecord :=
  ⟨0, zeroAddress, zeroAddress, zeroAddress, 0, 0, 0, 0, 0, 0, 0, 0⟩

/-- Oracle: NFT read succeeds with the all-zero record and both batches
succeed, returning empty (`"0x"`) results in order. -/
def c9_oracle2 : NetOracle :=
  { blockResp := .error (), nftResp := .ok ⟨none, some ("0x" ++ c9_posData)⟩,
    getPoolResp := .error (),
    batch8 := .ok (.arr
      [⟨some 1, some "0x"⟩, ⟨some 2, some "0x"⟩, ⟨some 3, some "0x"⟩,
       ⟨some 4, some "0x"⟩, ⟨some 5, some "0x"⟩, ⟨some 6, some "0x"⟩,
       ⟨some 7, some "0x"⟩, ⟨some 8, some "0x"⟩]),
    batch2 := .ok (.arr [⟨some 1, some "0x"⟩, ⟨some 2, some "0x"⟩]),
    single := fun _ _ => .error () }

def c10_cfg : ReaderCfg :=
  ⟨"arbitrum", "https://rpc.example", "0xPM", "0xFA", "uniswap_v3", "Uniswap V3"⟩

def c10_oracle : NetOracle :=
  { blockResp := .error (), nftResp := .error (), getPoolResp := .error (),
    batch8 := .error (), batch2 := .error (), single := fun _ _ => .error () }

/-! ## Claim theorems -/

/-- C9 counterexample: for a zero-liquidity position, `read_position`
completes and its snapshot reports `liquidity_raw = 0` — but it contains
no `isActive` (or `is_active`) key at all, so the snapshot does not report
`isActive = false`. -/
theorem C9_counterexample :
    snapLookup (readPosition 7 (some c9_pa) c9_cfg c9_oracle) "liquidity_raw" =
      some (some (.vInt 0)) ∧
    snapLookup (readPosition 7 (some c9_pa) c9_cfg c9_oracle) "isActive" =
      some none ∧
    snapLookup (readPosition 7 (some c9_pa) c9_cfg c9_oracle) "is_active" =
      some none :=
  ⟨rfl, rfl, rfl⟩

/-- C9 amended: for every position whose decoded liquidity is 0 (and
well-formed responses), `read_position` completes without raising and its
snapshot reports `liquidity_raw = 0`; the snapshot has no `isActive`
field — the not-active classification (`liquidity > 0`, here `false`) is
computed by the position indexer's summary, not by `read_position`. -/
theorem C9_zero_liquidity :
    ∀ (pid : Int) (pa : String) (cfg : ReaderCfg) (o : NetOracle) (s : String)
      (pos : PosRecord) (b0 b1 b2 b3 b4 b5 b6 b7 t0 t1 : String)
      (sp ct pl d0 d1 g0 g1 : Int),
      0 ≤ pid →
      pyStartsWith pa "0x" = true → pa.length = 42 →
      eth_call o.nftResp = .ok s →
      decodePos s = some pos →
      pos.liquidity = 0 →
      batchDecode o.batch8 = .ok [b0, b1, b2, b3, b4, b5, b6, b7] →
      batchDecode o.batch2 = .ok [t0, t1] →
      decodeOrDefaultU b0 0 0 = some sp →
      decodeOrDefaultI b0 1 0 = some ct →
      decodeOrDefaultU b1 0 0 = some pl →
      decodeOrDefaultU b2 0 0 = some g0 →
      decodeOrDefaultU b3 0 0 = some g1 →
      decodeOrDefaultU b4 0 18 = some d0 →
      decodeOrDefaultU b5 0 6 = some d1 →
      snapLookup (readPosition pid (some pa) cfg o) "liquidity_raw" =
        some (some (.vInt 0)) ∧
      snapLookup (readPosition pid (some pa) cfg o) "is_active" = some none ∧
      snapLookup (readPosition pid (some pa) cfg o) "isActive" = some none ∧
      indexer_is_active pos.liquidity = false := by
  intro pid pa cfg o s pos b0 b1 b2 b3 b4 b5 b6 b7 t0 t1 sp ct pl d0 d1 g0 g1
  intro hpid hsw hlen hnft hdec hliq hbatch8 hbatch2 hsp hct hpl hg0 hg1 hd0 hd1
  have hpid' : ¬ pid < 0 := by omega
  have hne' : pa ≠ "" := by
    intro h
    rw [h] at hlen
    simp at hlen
  have hne : (pa == "") = false := beq_eq_false_iff_ne.mpr hne'
  have hinv : ¬ invalidPoolArg (some pa) = true := by
    simp [invalidPoolArg, hne, hsw, hlen]
  have hg : poolGiven (some pa) = true := by
    simp [poolGiven, hne]
  have hred : ∃ a : SnapArgs, a.pos = pos ∧
      (readPosition pid (some pa) cfg o).1 = .ok (assembleSnapshot a) := by
    simp only [readPosition, if_neg hpid', if_neg hinv, hnft, hdec,
      if_pos hg, Option.getD_some, eth_call_batch, hbatch8, hbatch2,
      batchWithFallback, fallbackLog, List.getElem?_cons_zero,
      List.getElem?_cons_succ, hsp, hct, hpl, hg0, hg1, hd0, hd1]
    exact ⟨_, rfl, rfl⟩
  obtain ⟨a, hap, ha⟩ := hred
  refine ⟨?_, ?_, ?_, ?_⟩
  · rw [snapLookup_eq _ _ ha, lookup_liquidity_raw, hap, hliq]
  · rw [snapLookup_eq _ _ ha, lookup_is_active]
  · rw [snapLookup_eq _ _ ha, lookup_isActive]
  · rw [hliq]
    rfl

/-- Witness for C9 at the all-zero position with well-formed batch
responses. -/
theorem C9_zero_liquidity_witness :
    snapLookup (readPosition 7 (some c9_pa) c9_cfg c9_oracle2) "liquidity_raw" =
      some (some (.vInt 0)) ∧
    snapLookup (readPosition 7 (some c9_pa) c9_cfg c9_oracle2) "is_active" =
      some none ∧
    snapLookup (readPosition 7 (some c9_pa) c9_cfg c9_oracle2) "isActive" =
      some none ∧
    indexer_is_active c9_pos.liquidity = false :=
  C9_zero_liquidity 7 c9_pa c9_cfg c9_oracle2 c9_posData c9_pos
    "" "" "" "" "" "" "" "" "" "" 0 0 0 18 6 0 0
    (by decide) rfl rfl rfl rfl rfl rfl rfl rfl rfl rfl rfl rfl rfl rfl

/-- C10 counterexample: supplying the empty string as `pool_address` — an
input that neither starts with `0x` nor has length 42 — does not raise a
`ValueError`: Python truthiness treats `""` as "not supplied", validation
is skipped, and network I/O is performed (block-number query and
positions call). -/
theorem C10_counterexample :
    (readPosition 0 (some "") c10_cfg c10_oracle).2 =
      [.blockNumber, .call "0xPM" (SELECTOR_positions ++ encode_uint256 0)] ∧
    (readPosition 0 (some "") c10_cfg c10_oracle).1 = .error "RPC error" :=
  ⟨rfl, rfl⟩

/-- C10 amended: a negative `position_id`, or a *non-empty* supplied
`pool_address` that does not start with `0x` or is not exactly 42
characters long, raises a `ValueError` before any RPC call is performed
(the returned log of network operations is empty); an empty-string
`pool_address` is instead treated as not supplied. -/
theorem C10_validation :
    ∀ (pid : Int) (pa : Option String) (cfg : ReaderCfg) (o : NetOracle),
      (pid < 0 →
        readPosition pid pa cfg o =
          (.error "position_id must be non-negative", [])) ∧
      (0 ≤ pid → invalidPoolArg pa = true →
        readPosition pid pa cfg o = (.error "Invalid pool address", [])) := by
  intro pid pa cfg o
  constructor
  · intro h
    unfold readPosition
    rw [if_pos h]
  · intro h1 h2
    unfold readPosition
    rw [if_neg (by omega : ¬ pid < 0), if_pos h2]

/-- Witness for C10: a negative id and a malformed non-empty pool address
each fail fast with an empty RPC log. -/
theorem C10_validation_witness :
    readPosition (-1) none c10_cfg c10_oracle =
      (.error "position_id must be non-negative", []) ∧
    readPosition 0 (some "0y123") c10_cfg c10_oracle =
      (.error "Invalid pool address", []) :=
  ⟨(C10_validation (-1) none c10_cfg c10_oracle).1 (by decide),
   (C10_validation 0 (some "0y123") c10_cfg c10_oracle).2 (by decide) (by decide)⟩

/-- C8: `capital_efficiency_vs_v2` returns exactly 1 for every degenerate
input (`price_upper ≤ price_lower` or `price_lower ≤ 0`) without failing,
and for every valid range `0 < lo < hi` it returns
`1 / (1 - sqrt (lo / hi))`, which is at least 1. -/
theorem C8_capital_efficiency :
    ∀ lo hi : ℝ,
      ((hi ≤ lo ∨ lo ≤ 0) → capital_efficiency_vs_v2 lo hi = 1) ∧
      (0 < lo → lo < hi →
        capital_efficiency_vs_v2 lo hi = 1 / (1 - Real.sqrt (lo / hi)) ∧
        1 ≤ capital_efficiency_vs_v2 lo hi) := by
  intro lo hi
  constructor
  · intro h
    unfold capital_efficiency_vs_v2
    rw [if_pos h]
  · intro h1 h2
    have hcond : ¬ (hi ≤ lo ∨ lo ≤ 0) := by
      push_neg
      exact ⟨h2, h1⟩
    have hhi : 0 < hi := lt_trans h1 h2
    have hr0 : 0 ≤ lo / hi := le_of_lt (div_pos h1 hhi)
    have hr1 : lo / hi < 1 := (div_lt_one hhi).mpr h2
    have hs1 : Real.sqrt (lo / hi) < 1 := by
      have h := Real.sqrt_lt_sqrt hr0 hr1
      rwa [Real.sqrt_one] at h
    have hsnn : 0 ≤ Real.sqrt (lo / hi) := Real.sqrt_nonneg _
    have hd : 0 < 1 - Real.sqrt (lo / hi) := by linarith
    have heval : capital_efficiency_vs_v2 lo hi = 1 / (1 - Real.sqrt (lo / hi)) := by
      unfold capital_efficiency_vs_v2
      rw [if_neg hcond]
      show (if 0 < 1 - Real.sqrt (lo / hi) then 1 / (1 - Real.sqrt (lo / hi))
        else 1) = 1 / (1 - Real.sqrt (lo / hi))
      rw [if_pos hd]
    refine ⟨heval, ?_⟩
    rw [heval, le_div_iff₀ hd, one_mul]
    linarith

/-- Witness for C8 on the valid range `(1, 4)`. -/
theorem C8_capital_efficiency_witness :
    (0 : ℝ) < 1 ∧ (1 : ℝ) < 4 ∧ 1 ≤ capital_efficiency_vs_v2 1 4 :=
  ⟨by norm_num, by norm_num,
    ((C8_capital_efficiency 1 4).2 (by norm_num) (by norm_num)).2⟩

/-- C1: for every position record and all integer inputs, `_compute_fees`'
raw fee arithmetic equals the reference fee-growth-inside algorithm
(fee growth below / above by boundary side, `inside = global - below -
above` mod `2^256`, uncollected = `liquidity * Δ mod 2^256 / 2^128` plus
`tokensOwed`); and with `feeGrowthGlobal0 = 1000`, zero boundary outside
values and the current tick inside `[tickLower, tickUpper)`, the fee
growth inside is exactly 1000. -/
theorem C1_compute_fees_reference :
    (∀ (pos : PosRecord) (ct g0 g1 a b c d : Int),
      computeFeesRaw pos ct g0 g1 a b c d =
        (uncollectedRef pos.liquidity
          (feeGrowthInsideRef g0 (feeGrowthBelowRef ct pos.tickLower g0 a)
            (feeGrowthAboveRef ct pos.tickUpper g0 c))
          pos.feeGrowthInside0LastX128 pos.tokensOwed0,
         uncollectedRef pos.liquidity
          (feeGrowthInsideRef g1 (feeGrowthBelowRef ct pos.tickLower g1 b)
            (feeGrowthAboveRef ct pos.tickUpper g1 d))
          pos.feeGrowthInside1LastX128 pos.tokensOwed1)) ∧
    (∀ tl tu ct : Int, tl ≤ ct → ct < tu →
      feeGrowthInsideRef 1000 (feeGrowthBelowRef ct tl 1000 0)
        (feeGrowthAboveRef ct tu 1000 0) = 1000) := by
  constructor
  · intro pos ct g0 g1 a b c d
    rfl
  · intro tl tu ct h1 h2
    have hb : feeGrowthBelowRef ct tl 1000 0 = 0 := by
      simp [feeGrowthBelowRef, h1]
    have ha : feeGrowthAboveRef ct tu 1000 0 = 0 := by
      simp [feeGrowthAboveRef, h2]
    rw [feeGrowthInsideRef, hb, ha]
    decide

/-- Witness for C1 at the concrete scenario `tickLower = 0`,
`tickUpper = 10`, `currentTick = 5`. -/
theorem C1_compute_fees_reference_witness :
    feeGrowthInsideRef 1000 (feeGrowthBelowRef 5 0 1000 0)
      (feeGrowthAboveRef 5 10 1000 0) = 1000 :=
  C1_compute_fees_reference.2 0 10 5 (by decide) (by decide)

/-- C2: the codec round-trips exactly on the claimed values:
`decode_uint (encode_uint256 x) 0 = x` for `x ∈ {0, 1, 2^128, 2^256-1}`
and `decode_int (encode_int24 t) 0 = t` for
`t ∈ {0, 1, -1, 887272, -887272}`. -/
theorem C2_codec_round_trip :
    decode_uint (encode_uint256 0) 0 = some 0 ∧
    decode_uint (encode_uint256 1) 0 = some 1 ∧
    decode_uint (encode_uint256 (2 ^ 128)) 0 = some (2 ^ 128) ∧
    decode_uint (encode_uint256 (2 ^ 256 - 1)) 0 = some (2 ^ 256 - 1) ∧
    decode_int (encode_int24 0) 0 = some 0 ∧
    decode_int (encode_int24 1) 0 = some 1 ∧
    decode_int (encode_int24 (-1)) 0 = some (-1) ∧
    decode_int (encode_int24 887272) 0 = some 887272 ∧
    decode_int (encode_int24 (-887272)) 0 = some (-887272) := by
  decide

/-- Every character `hexDigit` produces for a value below 16 is a hex
digit. -/
lemma hexDigit_isHexVal : ∀ n < 16, (hexVal (hexDigit n)).isSome = true := by
  decide

/-- The list `hexDigitsAux` produces is never empty. -/
lemma hexDigitsAux_length_pos (fuel n : Nat) : 0 < (hexDigitsAux fuel n).length := by
  cases fuel with
  | zero => simp [hexDigitsAux]
  | succ f =>
    rw [hexDigitsAux]
    split <;> simp

/-- With adequate fuel, every character of `hexDigitsAux` is a hex digit. -/
lemma hexDigitsAux_isHex :
    ∀ fuel n, n ≤ fuel → ∀ c ∈ hexDigitsAux fuel n, (hexVal c).isSome = true := by
  intro fuel
  induction fuel with
  | zero =>
    intro n hn c hc
    have : n = 0 := Nat.le_zero.mp hn
    subst this
    simp only [hexDigitsAux, List.mem_singleton] at hc
    subst hc
    decide
  | succ f ih =>
    intro n hn c hc
    rw [hexDigitsAux] at hc
    split at hc
    · rename_i h16
      simp only [List.mem_singleton] at hc
      subst hc
      exact hexDigit_isHexVal n h16
    · rename_i h16
      rcases List.mem_append.mp hc with h | h
      · have hdiv : n / 16 < n := Nat.div_lt_self (by omega) (by omega)
        exact ih (n / 16) (by omega) c h
      · simp only [List.mem_singleton] at h
        subst h
        exact hexDigit_isHexVal (n % 16) (Nat.mod_lt n (by omega))

/-- With adequate fuel, a value below `16^(k+1)` has at most `k+1` hex
digits. -/
lemma hexDigitsAux_length_le :
    ∀ fuel n k, n ≤ fuel → n < 16 ^ (k + 1) →
      (hexDigitsAux fuel n).length ≤ k + 1 := by
  intro fuel
  induction fuel with
  | zero =>
    intro n k hn _
    have : n = 0 := Nat.le_zero.mp hn
    subst this
    simp [hexDigitsAux]
  | succ f ih =>
    intro n k hn hk
    rw [hexDigitsAux]
    split
    · simp
    · rename_i h16
      push_neg at h16
      cases k with
      | zero => omega
      | succ k' =>
        have hdiv : n / 16 < n := Nat.div_lt_self (by omega) (by omega)
        have hlt : n / 16 < 16 ^ (k' + 1) := by
          rw [Nat.div_lt_iff_lt_mul (by omega)]
          calc n < 16 ^ (k' + 2) := hk
          _ = 16 ^ (k' + 1) * 16 := by ring
        have := ih (n / 16) k' (by omega) hlt
        simp only [List.length_append, List.length_singleton]
        omega

/-- With adequate fuel, a value at least `16^k` has more than `k` hex
digits. -/
lemma hexDigitsAux_length_ge :
    ∀ fuel n k, n ≤ fuel → 16 ^ k ≤ n → k + 1 ≤ (hexDigitsAux fuel n).length := by
  intro fuel
  induction fuel with
  | zero =>
    intro n k hn hk
    have h0 : n = 0 := Nat.le_zero.mp hn
    have : 0 < 16 ^ k := Nat.pos_pow_of_pos k (by omega)
    omega
  | succ f ih =>
    intro n k hn hk
    cases k with
    | zero =>
      have := hexDigitsAux_length_pos (f + 1) n
      omega
    | succ k' =>
      have h16 : 16 ≤ n := le_trans (by calc (16:Nat) = 16 ^ 1 := (pow_one 16).symm
        _ ≤ 16 ^ (k' + 1) := Nat.pow_le_pow_right (by omega) (by omega)) hk
      rw [hexDigitsAux]
      rw [if_neg (by omega)]
      have hdiv : n / 16 < n := Nat.div_lt_self (by omega) (by omega)
      have hge : 16 ^ k' ≤ n / 16 := by
        rw [Nat.le_div_iff_mul_le (by omega)]
        calc 16 ^ k' * 16 = 16 ^ (k' + 1) := by ring
        _ ≤ n := hk
      have := ih (n / 16) k' (by omega) hge
      simp only [List.length_append, List.length_singleton]
      omega

/-- C4 counterexample: `encode_uint256` does not fail on out-of-range
input — a negative value returns a sign-prefixed 64-character string and a
value of 257 bits returns a 65-character string, in both cases without any
`EncodingError`. -/
theorem C4_counterexample :
    (encode_uint256 (-1)).length = 64 ∧
    (encode_uint256 (-1)).data.head? = some '-' ∧
    (encode_uint256 (2 ^ 256)).length = 65 := by
  decide

/-- C4 amended: `encode_uint256` performs no validation and never fails:
for `0 ≤ v < 2^256` it returns exactly 64 left-zero-padded hex characters;
a negative value yields a `'-'`-prefixed string instead of an error, and a
value of more than 256 bits yields more than 64 characters instead of an
error. -/
theorem C4_encode_uint256_no_validation :
    ∀ v : Int,
      (0 ≤ v → v < 2 ^ 256 →
        (encode_uint256 v).length = 64 ∧
        ∀ c ∈ (encode_uint256 v).data, (hexVal c).isSome = true) ∧
      (v < 0 → (encode_uint256 v).data.head? = some '-') ∧
      (2 ^ 256 ≤ v → 64 < (encode_uint256 v).length) := by
  intro v
  refine ⟨?_, ?_, ?_⟩
  · intro h0 h1
    have hnn : ¬ v < 0 := by omega
    have htn : v.toNat < 16 ^ 64 := by
      have : (16 : Nat) ^ 64 = 2 ^ 256 := by norm_num
      omega
    have hlen : (hexDigits v.toNat).length ≤ 64 := by
      have := hexDigitsAux_length_le v.toNat v.toNat 63 le_rfl (by
        have : (16 : Nat) ^ 64 = 16 ^ (63 + 1) := by norm_num
        omega)
      exact this
    constructor
    · simp only [encode_uint256, pyFormatHex64, if_neg hnn]
      simp only [String.length_mk, padLeftZero, List.length_append,
        List.length_replicate]
      omega
    · intro c hc
      simp only [encode_uint256, pyFormatHex64, if_neg hnn] at hc
      have hc' : c ∈ padLeftZero 64 (hexDigits v.toNat) := hc
      rcases List.mem_append.mp hc' with h | h
      · have : c = '0' := List.eq_of_mem_replicate h
        subst this
        decide
      · exact hexDigitsAux_isHex v.toNat v.toNat le_rfl c h
  · intro h
    simp [encode_uint256, pyFormatHex64, if_pos h]
  · intro h
    have hnn : ¬ v < 0 := by omega
    have htn : 16 ^ 64 ≤ v.toNat := by
      have : (16 : Nat) ^ 64 = 2 ^ 256 := by norm_num
      omega
    have hlen : 65 ≤ (hexDigits v.toNat).length :=
      hexDigitsAux_length_ge v.toNat v.toNat 64 le_rfl htn
    simp only [encode_uint256, pyFormatHex64, if_neg hnn]
    simp only [String.length_mk, padLeftZero, List.length_append,
      List.length_replicate]
    omega

/-- Witness for C4 at `v = 5` (valid range) applying the amended theorem's
in-range clause. -/
theorem C4_encode_uint256_no_validation_witness :
    (0 : Int) ≤ 5 ∧ (5 : Int) < 2 ^ 256 ∧ (encode_uint256 5).length = 64 :=
  ⟨by decide, by decide,
    ((C4_encode_uint256_no_validation 5).1 (by decide) (by decide)).1⟩

/-- C5 counterexample: the transport-level `eth_block_number` does not
return 0 on failure — it raises, both for an unreachable node and for an
error envelope. -/
theorem C5_counterexample :
    eth_block_number (Except.error ()) = Except.error () ∧
    eth_block_number (Except.ok ⟨some "rate limited", none⟩) = Except.error () :=
  ⟨rfl, rfl⟩

/-- C5 amended: the reader-side wrapper `_get_block_number` is the
operation that absorbs every failure of `eth_block_number` into 0, while
passing a successful block number through. -/
theorem C5_block_number_fallback :
    ∀ resp : Except Unit CallResp,
      (∀ e, eth_block_number resp = .error e → get_block_number resp = 0) ∧
      (∀ n, eth_block_number resp = .ok n → get_block_number resp = n) := by
  intro resp
  constructor
  · intro e h
    simp [get_block_number, h]
  · intro n h
    simp [get_block_number, h]

/-- Witness for C5 at an unreachable node. -/
theorem C5_block_number_fallback_witness :
    get_block_number (Except.error ()) = 0 :=
  (C5_block_number_fallback (Except.error ())).1 () rfl

/-- C6 counterexample: when the batched request fails at transport level,
`eth_call_batch` itself fails without any sequential retry — even though
retrying the two calls individually would succeed (as the caller-side
fallback `batchWithFallback` demonstrates on the same inputs). -/
theorem C6_counterexample :
    eth_call_batch [("0xA", "0xD1"), ("0xB", "0xD2")]
      (fun _ => Except.error ()) = Except.error () ∧
    batchWithFallback
      (eth_call_batch [("0xA", "0xD1"), ("0xB", "0xD2")] fun _ => Except.error ())
      (fun _ _ => Except.ok ⟨none, some "0xaa11"⟩)
      [("0xA", "0xD1"), ("0xB", "0xD2")] = ["aa11", "aa11"] :=
  ⟨rfl, rfl⟩

/-- C6 amended: the batch → N-sequential-single-calls fallback is the
caller's responsibility: `eth_call_batch` propagates a transport failure
unchanged, and `read_position`'s `batchWithFallback` wrapper is what
retries each call individually (leaving `""` for calls that fail). -/
theorem C6_fallback_is_callers :
    ∀ (calls : List (String × String))
      (single : String → String → Except Unit CallResp),
      eth_call_batch calls (fun _ => Except.error ()) = Except.error () ∧
      batchWithFallback (Except.error ()) single calls =
        calls.map (fun c =>
          match eth_call (single c.1 c.2) with
          | .ok r => r
          | .error _ => "") := by
  intro calls single
  exact ⟨rfl, rfl⟩

/-- The well-formed batch response array for result payloads `xs`: item
`i` carries correlation id `i + 1` (matching the submitted payloads) and
result `xs[i]`, in submission order. -/
def canonicalResp (xs : List String) : List RpcRespItem :=
  xs.enum.map fun p => ⟨some ((p.1 : Int) + 1), some p.2⟩

/-- Every item of the canonical response tail starting at index `k` has a
key of at least `k + 1`. -/
lemma canonical_key_lb :
    ∀ (xs : List String) (k : Nat) (b : RpcRespItem),
      b ∈ (xs.enumFrom k).map
        (fun p => (⟨some ((p.1 : Int) + 1), some p.2⟩ : RpcRespItem)) →
      (k : Int) + 1 ≤ b.id.getD 0 := by
  intro xs
  induction xs with
  | nil => simp
  | cons x xs ih =>
    intro k b hb
    simp only [List.enumFrom_cons, List.map_cons, List.mem_cons] at hb
    rcases hb with hb | hb
    · subst hb
      simp
    · have := ih (k + 1) b hb
      push_cast at this ⊢
      omega

/-- The canonical response array is strictly sorted by key. -/
lemma canonical_sorted_lt :
    ∀ (xs : List String) (k : Nat),
      List.Sorted idLt ((xs.enumFrom k).map
        fun p => (⟨some ((p.1 : Int) + 1), some p.2⟩ : RpcRespItem)) := by
  intro xs
  induction xs with
  | nil => simp
  | cons x xs ih =>
    intro k
    simp only [List.enumFrom_cons, List.map_cons, List.sorted_cons]
    refine ⟨?_, ih (k + 1)⟩
    intro b hb
    have := canonical_key_lb xs (k + 1) b hb
    simp only [idLt, Option.getD_some]
    push_cast at this ⊢
    omega

/-- Sorting any permutation of the canonical response array by the batch
key recovers the canonical array itself. -/
lemma sort_perm_canonical (xs : List String) (rs : List RpcRespItem)
    (h : rs.Perm (canonicalResp xs)) :
    List.insertionSort idLe rs = canonicalResp xs := by
  haveI : IsTotal RpcRespItem idLe := ⟨fun a b => le_total _ _⟩
  haveI : IsTrans RpcRespItem idLe := ⟨fun a b c hab hbc => le_trans hab hbc⟩
  haveI : IsAntisymm RpcRespItem idLt := ⟨fun a b h1 h2 => ((lt_asymm h1) h2).elim⟩
  have hperm : (List.insertionSort idLe rs).Perm (canonicalResp xs) :=
    (List.perm_insertionSort idLe rs).trans h
  have hcan_lt : List.Sorted idLt (canonicalResp xs) := canonical_sorted_lt xs 0
  have hcan_ne : (canonicalResp xs).Pairwise
      (fun a b => a.id.getD 0 ≠ b.id.getD 0) :=
    hcan_lt.imp fun hab => ne_of_lt hab
  have hcan_nodup : ((canonicalResp xs).map fun r => r.id.getD 0).Nodup :=
    List.pairwise_map.mpr hcan_ne
  have hsort_nodup :
      ((List.insertionSort idLe rs).map fun r => r.id.getD 0).Nodup :=
    ((hperm.map fun r => r.id.getD 0).nodup_iff).mpr hcan_nodup
  have hsort_ne : (List.insertionSort idLe rs).Pairwise
      (fun a b => a.id.getD 0 ≠ b.id.getD 0) :=
    List.pairwise_map.mp hsort_nodup
  have hsortle : List.Sorted idLe (List.insertionSort idLe rs) :=
    List.sorted_insertionSort idLe rs
  have hsortlt : List.Sorted idLt (List.insertionSort idLe rs) :=
    (hsortle.and hsort_ne).imp fun hab => lt_of_le_of_ne hab.1 hab.2
  exact List.eq_of_perm_of_sorted hperm hsortlt hcan_lt

/-- The correlation ids assigned to the payload tail starting at index
`k` are `k+1, k+2, …`. -/
lemma payload_ids :
    ∀ (calls : List (String × String)) (k : Nat),
      ((calls.enumFrom k).map fun p => p.1 + 1) = List.range' (k + 1) calls.length := by
  intro calls
  induction calls with
  | nil => simp
  | cons c calls ih =>
    intro k
    simp only [List.enumFrom_cons, List.map_cons, List.length_cons, List.range'_succ]
    rw [ih (k + 1)]

/-- C3: `eth_call_batch` tags the requests with the sequential correlation
ids `1, …, n`; a JSON-array response that is any permutation of the
canonical one is sorted back into request-id order before the results are
returned; a single JSON-object response yields a one-element result
list. -/
theorem C3_batch_order :
    (∀ calls : List (String × String),
      (makePayloads calls).map RpcPayload.id = List.range' 1 calls.length) ∧
    (∀ (calls : List (String × String)) (xs : List String) (rs : List RpcRespItem),
      rs.Perm (canonicalResp xs) →
      eth_call_batch calls (fun _ => .ok (.arr rs)) =
        .ok (xs.map fun s => s.drop 2)) ∧
    (∀ (calls : List (String × String)) (item : RpcRespItem),
      eth_call_batch calls (fun _ => .ok (.obj item)) =
        .ok [(item.result.getD "0x").drop 2]) := by
  refine ⟨?_, ?_, ?_⟩
  · intro calls
    have : (makePayloads calls).map RpcPayload.id =
        (calls.enumFrom 0).map fun p => p.1 + 1 := by
      simp [makePayloads, List.enum, List.map_map, Function.comp]
    rw [this, payload_ids calls 0]
  · intro calls xs rs h
    show Except.ok (batchSortExtract rs) = _
    rw [batchSortExtract, sort_perm_canonical xs rs h]
    congr 1
    simp only [canonicalResp, List.map_map, Function.comp]
    have : xs.map (fun s => s.drop 2) =
        (xs.enum.map Prod.snd).map fun s => s.drop 2 := by
      rw [List.enum_map_snd]
    rw [this, List.map_map]
    rfl
  · intro calls item
    rfl

/-- Witness for C3 on a two-call batch whose server response arrives in
reversed order. -/
theorem C3_batch_order_witness :
    ([⟨some 2, some "0xbb"⟩, ⟨some 1, some "0xaa"⟩] : List RpcRespItem).Perm
      (canonicalResp ["0xaa", "0xbb"]) ∧
    eth_call_batch [("p", "d1"), ("p", "d2")]
      (fun _ => .ok (.arr [⟨some 2, some "0xbb"⟩, ⟨some 1, some "0xaa"⟩])) =
      .ok ["aa", "bb"] :=
  ⟨by decide, C3_batch_order.2.1 [("p", "d1"), ("p", "d2")] ["0xaa", "0xbb"]
    [⟨some 2, some "0xbb"⟩, ⟨some 1, some "0xaa"⟩] (by decide)⟩

/-- C7: `_compute_fees` never raises; whenever the boundary tick data is
missing or any of the four `feeGrowthOutside` decodes fails, it returns
exactly the checkpointed `tokensOwed0 / 10^decimals0` and
`tokensOwed1 / 10^decimals1`. -/
theorem C7_compute_fees_absorbs :
    ∀ (pos : PosRecord) (ct g0 g1 : Int) (tld tud : String) (d0 d1 : Int),
      (tld = "" ∨ tud = "" ∨ decode_uint tld 2 = none ∨ decode_uint tld 3 = none ∨
        decode_uint tud 2 = none ∨ decode_uint tud 3 = none) →
      compute_fees pos ct g0 g1 tld tud d0 d1 =
        ((pos.tokensOwed0 : ℚ) / (10 : ℚ) ^ d0,
         (pos.tokensOwed1 : ℚ) / (10 : ℚ) ^ d1) := by
  intro pos ct g0 g1 tld tud d0 d1 h
  unfold compute_fees
  split
  · rfl
  · rename_i hne
    cases e1 : decode_uint tld 2 <;> cases e2 : decode_uint tld 3 <;>
      cases e3 : decode_uint tud 2 <;> cases e4 : decode_uint tud 3 <;>
      simp_all

/-- Witness for C7 with empty lower-boundary data. -/
theorem C7_compute_fees_absorbs_witness :
    compute_fees ⟨0, "", "", "", 0, -10, 10, 5, 0, 0, 123, 456⟩ 0 0 0 "" "ff" 18 6 =
      ((123 : ℚ) / (10 : ℚ) ^ (18 : Int), (456 : ℚ) / (10 : ℚ) ^ (6 : Int)) :=
  C7_compute_fees_absorbs ⟨0, "", "", "", 0, -10, 10, 5, 0, 0, 123, 456⟩
    0 0 0 "" "ff" 18 6 (Or.inl rfl)

end DefiCli
